import Mathlib

/-!
Verification development for the browser-side data layer of the
WebGroupCW social-profile application (frontend/src/stores/userStore.ts,
frontend/src/interfaces.ts).  The store is embedded shallowly: network
responses are supplied by an environment record, each action is a pure
function from the environment and the current container state to the new
state, a trace of observable effects (requests, navigations, console
logs) and the returned result value.
-/

namespace UserStore

/-! ### JavaScript string splitting

`getCookie` in userStore.ts works by `String.prototype.split` on a
substring separator.  We model JS strings as `List Char` and reproduce
the left-to-right, non-overlapping scan of `split`. -/

/-- Index of the first occurrence of `sep` as a contiguous sublist of `s`
(the first `i` such that `sep` is a prefix of `s.drop i`), as JS
`String.prototype.indexOf` computes it. -/
def findSub (sep : List Char) (s : List Char) : Option Nat :=
  if sep <+: s then some 0
  else
    match s with
    | [] => none
    | _ :: t => (findSub sep t).map (· + 1)

theorem findSub_nil (sep : List Char) (h : sep ≠ []) : findSub sep [] = none := by
  rw [findSub.eq_def]
  rw [if_neg (by simpa using h)]

theorem findSub_cons (sep : List Char) (a : Char) (t : List Char) (h : ¬ sep <+: a :: t) :
    findSub sep (a :: t) = (findSub sep t).map (· + 1) := by
  rw [findSub.eq_def]
  rw [if_neg h]

theorem findSub_of_pre (sep s : List Char) (h : sep <+: s) : findSub sep s = some 0 := by
  rw [findSub.eq_def]
  rw [if_pos h]

/-- From `findSub sep s = some i`, `sep` is a prefix of `s.drop i`. -/
theorem findSub_some_pre (sep : List Char) :
    ∀ (s : List Char) (i : Nat), findSub sep s = some i → sep <+: s.drop i := by
  intro s
  induction s with
  | nil =>
      intro i h
      by_cases hp : sep <+: ([] : List Char)
      · rw [findSub_of_pre sep [] hp] at h
        cases h
        simpa using hp
      · have hne : sep ≠ [] := fun he => hp (by simp [he])
        rw [findSub_nil sep hne] at h
        cases h
  | cons a t ih =>
      intro i h
      by_cases hp : sep <+: a :: t
      · rw [findSub_of_pre sep (a :: t) hp] at h
        cases h
        simpa using hp
      · rw [findSub_cons sep a t hp] at h
        rcases Option.map_eq_some'.mp h with ⟨j, hj, rfl⟩
        simpa using ih j hj

/-- The tail left after cutting out the found occurrence is strictly
shorter; this is what makes the splitting loop terminate. -/
theorem drop_len_lt (sep s : List Char) (i : Nat) (hsep : sep ≠ [])
    (h : findSub sep s = some i) : (s.drop (i + sep.length)).length < s.length := by
  have hpre := findSub_some_pre sep s i h
  have hne : s.drop i ≠ [] := by
    intro hnil
    rw [hnil, List.prefix_nil] at hpre
    exact hsep hpre
  have hi : i < s.length := by
    by_contra hge
    exact hne (List.drop_eq_nil_of_le (Nat.le_of_not_lt hge))
  have hlen : (s.drop (i + sep.length)).length = s.length - (i + sep.length) := by
    simp
  rw [hlen]
  have hpos : 0 < sep.length := List.length_pos.mpr hsep
  omega

/-- JS `String.prototype.split` with a non-empty string separator:
left-to-right scan cutting at each non-overlapping occurrence.  (The
store only ever splits on the non-empty separators `"; " + name + "="`
and `";"`, so the empty-separator case is irrelevant and mapped to the
trivial split.) -/
def jsSplit (sep : List Char) (s : List Char) : List (List Char) :=
  if hsep : sep = [] then [s]
  else
    match hfs : findSub sep s with
    | none => [s]
    | some i => s.take i :: jsSplit sep (s.drop (i + sep.length))
termination_by s.length
decreasing_by exact drop_len_lt sep s i hsep hfs

/-- Number of (non-overlapping, left-to-right) occurrences of `sep` in
`s`: the count JS `split` produces one more part than. -/
def countOcc (sep : List Char) (s : List Char) : Nat :=
  if hsep : sep = [] then 0
  else
    match hfs : findSub sep s with
    | none => 0
    | some i => 1 + countOcc sep (s.drop (i + sep.length))
termination_by s.length
decreasing_by exact drop_len_lt sep s i hsep hfs

/-! ### getCookie (userStore.ts lines 5–10) -/

/-- The separator `` `; ${name}=` `` used by `getCookie`. -/
def cookieSep (name : String) : List Char := ("; " ++ name ++ "=").data

/-- The cookie-reading utility from userStore.ts:
```
const value = `; ${document.cookie}`;
const parts = value.split(`; ${name}=`);
if (parts.length === 2) return parts.pop()?.split(';').shift() || null;
return null;
```
(`|| null` maps an empty cookie value to `null`). -/
def getCookie (cookie : String) (name : String) : Option String :=
  let value := ("; " ++ cookie).data
  let parts := jsSplit (cookieSep name) value
  if parts.length = 2 then
    let raw := (jsSplit [';'] (parts.getLastD [])).headD []
    if raw = [] then none else some (String.mk raw)
  else none

/-- Characterization of `getCookie` claimed by the spec: a non-null
result exactly when the delimiter `"; " + name + "="` occurs exactly
once in `"; " + document.cookie` and the value following that occurrence
up to the next `';'` is non-empty; that value is returned, and in every
other case the result is null. -/
def getCookieSpec (cookie : String) (name : String) : Option String :=
  let value := ("; " ++ cookie).data
  let sep := cookieSep name
  if countOcc sep value = 1 then
    match findSub sep value with
    | some i =>
        let v := (value.drop (i + sep.length)).takeWhile (fun x => x ≠ ';')
        if v = [] then none else some (String.mk v)
    | none => none
  else none

/-- Absence of a cookie named `name` from the cookie store: the
delimiter `"; " + name + "="` occurs nowhere in `"; " + document.cookie`. -/
def cookieAbsent (cookie : String) (name : String) : Prop :=
  ¬ cookieSep name <:+: ("; " ++ cookie).data

instance (cookie name : String) : Decidable (cookieAbsent cookie name) :=
  instDecidableNot

/-! ### Data contracts (frontend/src/interfaces.ts) -/

/-- The `Hobby` interface from interfaces.ts. -/
structure Hobby where
  id : Int
  name : String
  created_at : String
  created_by : Option String
deriving DecidableEq

/-- The `Profile` interface from interfaces.ts (`avatar: File | string | null`; the
`File` alternative — a newly selected local file — is outside this
layer's observable behavior and is modelled as its string reference). -/
structure Profile where
  bio : String
  avatar : Option String
deriving DecidableEq

/-- The `User` interface from interfaces.ts. -/
structure User where
  username : String
  email : String
  date_of_birth : Option String
  first_name : String
  last_name : String
  profile : Profile
  hobbies : List Hobby
deriving DecidableEq

/-- Modelled from the spec: the `SimilarUser` interface is imported from
`../interfaces` but its declaration is not among the provided sources;
the spec describes similar users only as other user records sharing
hobbies, and the container treats them opaquely, so a username field
suffices. -/
structure SimilarUser where
  username : String
deriving DecidableEq

/-- Modelled from the spec: `PageData` — a page of other users sharing
hobbies with current-page and total-page counters; field names as
consumed by `fetchSimilarUsers` (`similar_users`, `page`, `total_pages`). -/
structure PageData where
  similar_users : List SimilarUser
  page : Int
  total_pages : Int
deriving DecidableEq

/-- Modelled from the spec: `FilterParams` — page number plus optional
min/max age bounds; field names as consumed by `fetchSimilarUsers`. -/
structure FilterParams where
  page : Int
  minAge : Option Int
  maxAge : Option Int
deriving DecidableEq

/-- An entry of the `hobbies` array passed to `updateProfile`: the code
accepts both raw numeric ids and `Hobby` objects
(`typeof hobby === 'number' ? hobby : hobby.id`). -/
inductive HobbyRef where
  | byId (id : Int)
  | byObj (hobby : Hobby)
deriving DecidableEq

/-- The id of one hobby entry: `typeof hobby === 'number' ? hobby : hobby.id` -/
def HobbyRef.toId : HobbyRef → Int
  | .byId n => n
  | .byObj h => h.id

/-- The `Partial<User>` argument of `updateProfile`: each field
optionally present; `hobbies` entries may be ids or objects. -/
structure UserPatch where
  username : Option String
  email : Option String
  date_of_birth : Option (Option String)
  first_name : Option String
  last_name : Option String
  profile : Option Profile
  hobbies : Option (List HobbyRef)
deriving DecidableEq

/-- The body sent by `updateProfile` after hobby-id normalization
(`formattedData`): the spread of the patch with `hobbies` replaced by an
id list (absent when the patch had no hobbies, since `JSON.stringify`
drops an `undefined` field). -/
structure FormattedUpdate where
  username : Option String
  email : Option String
  date_of_birth : Option (Option String)
  first_name : Option String
  last_name : Option String
  profile : Option Profile
  hobbies : Option (List Int)
deriving DecidableEq

/-- The normalization `formattedData = { ...updatedData, hobbies: updatedData.hobbies?.map(hobby => typeof hobby === 'number' ? hobby : hobby.id) }` -/
def formatUpdate (u : UserPatch) : FormattedUpdate where
  username := u.username
  email := u.email
  date_of_birth := u.date_of_birth
  first_name := u.first_name
  last_name := u.last_name
  profile := u.profile
  hobbies := u.hobbies.map (fun l => l.map HobbyRef.toId)

/-! ### Store state, environment, effects -/

/-- The Pinia store state (`UserState` in userStore.ts). -/
structure UserState where
  userData : Option User
  similarUsers : List SimilarUser
  currentPage : Int
  totalPages : Int
  hobbies : List Hobby
deriving DecidableEq

/-- The store's initial state. -/
def initialState : UserState where
  userData := none
  similarUsers := []
  currentPage := 1
  totalPages := 1
  hobbies := []

/-- Outcome of one `fetch` call: either the transport rejects, or an
HTTP response arrives with a status code and — for when `.json()` is
called on it — either a parsed body of the expected shape or a parse
failure (`none`). -/
inductive FetchResult (β : Type) where
  | netError (msg : String)
  | resp (status : Nat) (body : Option β)
deriving DecidableEq

/-- The `Response.ok` predicate: status in the range 200–299. -/
def isOk (status : Nat) : Bool := 200 ≤ status && status < 300

/-- Body read from a failed `PUT /api/profile/` response
(`errorData.errors`). -/
structure PutErrorBody where
  errors : Option String
deriving DecidableEq

/-- Body of a `POST /api/hobbies/` response: `{status, hobby?, errors?}`. -/
structure HobbyPostBody where
  status : String
  hobby : Option Hobby
  errors : Option String
deriving DecidableEq

/-- Body of a `GET /api/hobbies/` response: `{hobbies}`. -/
structure HobbiesBody where
  hobbies : List Hobby
deriving DecidableEq

/-- Body of `POST /api/profile/add_hobby` and
`POST /api/profile/delete_hobby` responses: `{status, errors?}`. -/
structure StatusBody where
  status : String
  errors : Option String
deriving DecidableEq

/-- The environment of one action invocation: the browser cookie store
(`document.cookie`) and the response the server gives to each endpoint
the store can reach during that invocation. -/
structure Env where
  cookie : String
  getProfileResp : FetchResult User
  putProfileResp : FetchResult PutErrorBody
  postHobbiesResp : FetchResult HobbyPostBody
  getHobbiesResp : FetchResult HobbiesBody
  addHobbyResp : FetchResult StatusBody
  deleteHobbyResp : FetchResult StatusBody
  similarResp : FetchResult PageData
  sendRequestResp : FetchResult Unit
deriving DecidableEq

/-- JSON request bodies the store `JSON.stringify`s. -/
inductive ReqBody where
  | updateBody (b : FormattedUpdate)
  | nameBody (name : String)
  | hobbyIdBody (hobby_id : Int)
  | usernameBody (username : String)
deriving DecidableEq

/-- One `fetch` call as observable from outside: method, URL, the
`X-CSRFToken` header when present, the JSON body when present
(`credentials: include` is common to every request and not tracked). -/
structure Request where
  method : String
  url : String
  csrf : Option String
  body : Option ReqBody
deriving DecidableEq

/-- Observable effects of one action invocation, in program order. -/
inductive Effect where
  | request (r : Request)
  | navigate (url : String)
  | log (msg : String)
deriving DecidableEq

/-- A JS exception as caught by an action's `catch` block. -/
inductive JsError where
  | error (msg : String)
  | jsonParse
  | network (msg : String)
deriving DecidableEq

/-- The error slot of a structured failure `{success:false, error}`. -/
inductive ErrVal where
  | str (s : String)
  | server (errors : Option String)
  | exn (e : JsError)
deriving DecidableEq

/-- Value returned by a mutating action: `{success:true}`,
`{success:true, hobby:data.hobby}` or `{success:false, error}`. -/
inductive ActionResult where
  | success
  | successHobby (hobby : Option Hobby)
  | failure (error : ErrVal)
deriving DecidableEq

/-- Result of a non-returning (fetch-style) action: new state plus
effect trace. -/
structure FetchOut where
  state : UserState
  effects : List Effect
deriving DecidableEq

/-- Result of a mutating action: new state, effect trace, returned
value. -/
structure ActionOut where
  state : UserState
  effects : List Effect
  result : ActionResult
deriving DecidableEq

/-- JS truthiness of the `string | null` returned by `getCookie`
(`if (!csrfToken)`). -/
def truthyStr : Option String → Bool
  | none => false
  | some s => s != ""

/-- JS `x || d` for a possibly-absent string: a JS-falsy `x` (`undefined` or
`""`) falls back to the default. -/
def jsOrDefault (x : Option String) (d : String) : String :=
  match x with
  | some v => if v = "" then d else v
  | none => d

/-! ### The actions (userStore.ts) -/

/-- Action `fetchUserProfile` (userStore.ts lines 31–49). -/
def fetchUserProfile (env : Env) (s : UserState) : FetchOut :=
  let req := Effect.request { method := "GET", url := "/api/profile/", csrf := none, body := none }
  match env.getProfileResp with
  | .netError _ =>
      { state := s, effects := [req, .log "Error fetching profile:", .navigate "/login/"] }
  | .resp status body =>
      if isOk status then
        match body with
        | some data => { state := { s with userData := some data }, effects := [req] }
        | none =>
            { state := s, effects := [req, .log "Error fetching profile:", .navigate "/login/"] }
      else
        if status == 403 || status == 401 then
          { state := s, effects := [req, .navigate "/login/"] }
        else
          { state := s, effects := [req, .log "Error fetching profile:", .navigate "/login/"] }

/-- Action `updateProfile` (userStore.ts lines 52–90). -/
def updateProfile (env : Env) (s : UserState) (updatedData : UserPatch) : ActionOut :=
  let csrfToken := getCookie env.cookie "csrftoken"
  if !truthyStr csrfToken then
    { state := s, effects := [.log "CSRF token not found."],
      result := .failure (.str "CSRF token not found") }
  else
    let formattedData := formatUpdate updatedData
    let req := Effect.request
      { method := "PUT", url := "/api/profile/",
        csrf := csrfToken, body := some (.updateBody formattedData) }
    match env.putProfileResp with
    | .netError m =>
        { state := s, effects := [req, .log "Error updating profile:"],
          result := .failure (.exn (.network m)) }
    | .resp status body =>
        if isOk status then
          let out := fetchUserProfile env s
          { state := out.state, effects := req :: out.effects, result := .success }
        else
          match body with
          | none =>
              { state := s, effects := [req, .log "Error updating profile:"],
                result := .failure (.exn .jsonParse) }
          | some errorData =>
              { state := s, effects := [req, .log "Error updating profile:"],
                result := .failure (.exn (.error
                  (jsOrDefault errorData.errors "Failed to update profile"))) }

/-- Action `fetchHobbies` (userStore.ts lines 204–217). -/
def fetchHobbies (env : Env) (s : UserState) : FetchOut :=
  let req := Effect.request { method := "GET", url := "/api/hobbies/", csrf := none, body := none }
  match env.getHobbiesResp with
  | .netError _ => { state := s, effects := [req, .log "Error fetching hobbies:"] }
  | .resp status body =>
      if isOk status then
        match body with
        | some data => { state := { s with hobbies := data.hobbies }, effects := [req] }
        | none => { state := s, effects := [req, .log "Error fetching hobbies:"] }
      else
        { state := s, effects := [req, .log "Error fetching hobbies:"] }

/-- Action `addHobby` (userStore.ts lines 93–127). -/
def addHobby (env : Env) (s : UserState) (hobbyName : String) : ActionOut :=
  let csrfToken := getCookie env.cookie "csrftoken"
  if !truthyStr csrfToken then
    { state := s, effects := [.log "CSRF token not found."],
      result := .failure (.str "CSRF token not found") }
  else
    let req := Effect.request
      { method := "POST", url := "/api/hobbies/",
        csrf := csrfToken, body := some (.nameBody hobbyName) }
    match env.postHobbiesResp with
    | .netError m =>
        { state := s, effects := [req, .log "Error adding hobby:"],
          result := .failure (.exn (.network m)) }
    | .resp status body =>
        if isOk status then
          match body with
          | none =>
              { state := s, effects := [req, .log "Error adding hobby:"],
                result := .failure (.exn .jsonParse) }
          | some data =>
              if data.status = "success" then
                let out := fetchHobbies env s
                { state := out.state, effects := req :: out.effects,
                  result := .successHobby data.hobby }
              else
                { state := s, effects := [req], result := .failure (.server data.errors) }
        else
          { state := s, effects := [req, .log "Error adding hobby:"],
            result := .failure (.exn (.error "Failed to add hobby")) }

/-- Action `addExistingHobbyToProfile` (userStore.ts lines 130–164). -/
def addExistingHobbyToProfile (env : Env) (s : UserState) (hobbyId : Int) : ActionOut :=
  let csrfToken := getCookie env.cookie "csrftoken"
  if !truthyStr csrfToken then
    { state := s, effects := [.log "CSRF token not found."],
      result := .failure (.str "CSRF token not found") }
  else
    let req := Effect.request
      { method := "POST", url := "/api/profile/add_hobby",
        csrf := csrfToken, body := some (.hobbyIdBody hobbyId) }
    match env.addHobbyResp with
    | .netError m =>
        { state := s, effects := [req, .log "Error adding hobby to profile:"],
          result := .failure (.exn (.network m)) }
    | .resp status body =>
        if isOk status then
          match body with
          | none =>
              { state := s, effects := [req, .log "Error adding hobby to profile:"],
                result := .failure (.exn .jsonParse) }
          | some data =>
              if data.status = "success" then
                let out := fetchUserProfile env s
                { state := out.state, effects := req :: out.effects, result := .success }
              else
                { state := s, effects := [req], result := .failure (.server data.errors) }
        else
          { state := s, effects := [req, .log "Error adding hobby to profile:"],
            result := .failure (.exn (.error "Failed to add hobby to profile")) }

/-- Action `deleteHobbyFromProfile` (userStore.ts lines 167–201). -/
def deleteHobbyFromProfile (env : Env) (s : UserState) (hobbyId : Int) : ActionOut :=
  let csrfToken := getCookie env.cookie "csrftoken"
  if !truthyStr csrfToken then
    { state := s, effects := [.log "CSRF token not found."],
      result := .failure (.str "CSRF token not found") }
  else
    let req := Effect.request
      { method := "POST", url := "/api/profile/delete_hobby",
        csrf := csrfToken, body := some (.hobbyIdBody hobbyId) }
    match env.deleteHobbyResp with
    | .netError m =>
        { state := s, effects := [req, .log "Error deleting hobby from profile:"],
          result := .failure (.exn (.network m)) }
    | .resp status body =>
        if isOk status then
          match body with
          | none =>
              { state := s, effects := [req, .log "Error deleting hobby from profile:"],
                result := .failure (.exn .jsonParse) }
          | some data =>
              if data.status = "success" then
                let out := fetchUserProfile env s
                { state := out.state, effects := req :: out.effects, result := .success }
              else
                { state := s, effects := [req], result := .failure (.server data.errors) }
        else
          { state := s, effects := [req, .log "Error deleting hobby from profile:"],
            result := .failure (.exn (.error "Failed to delete hobby from profile")) }

/-- JS truthiness of the optional numeric age bounds
(`if (params.minAge)` / `if (params.maxAge)`): absent, `null` and `0`
are falsy. -/
def truthyNum : Option Int → Bool
  | none => false
  | some n => n != 0

/-- The query-parameter list `URLSearchParams` accumulates in
`fetchSimilarUsers`, in insertion order:
`page`, then `min_age` when `params.minAge` is truthy, then `max_age`
when `params.maxAge` is truthy. -/
def similarQuery (params : FilterParams) : List (String × String) :=
  let q := [("page", toString params.page)]
  let q := if truthyNum params.minAge then
      q ++ [("min_age", toString (params.minAge.getD 0))] else q
  let q := if truthyNum params.maxAge then
      q ++ [("max_age", toString (params.maxAge.getD 0))] else q
  q

/-- Rendering of `URLSearchParams.toString`: `key=value` pairs joined by `&` (the
values are decimal numbers, which URL-encode to themselves). -/
def renderQuery (q : List (String × String)) : String :=
  String.intercalate "&" (q.map (fun p => p.1 ++ "=" ++ p.2))

/-- The URL `fetchSimilarUsers` requests. -/
def similarUrl (params : FilterParams) : String :=
  "/api/users/similar_with_filters/?" ++ renderQuery (similarQuery params)

/-- Action `fetchSimilarUsers` (userStore.ts lines 220–241). -/
def fetchSimilarUsers (env : Env) (s : UserState) (params : FilterParams) : FetchOut :=
  let req := Effect.request
    { method := "GET", url := similarUrl params, csrf := none, body := none }
  match env.similarResp with
  | .netError _ => { state := s, effects := [req, .log "Error fetching similar users:"] }
  | .resp status body =>
      if isOk status then
        match body with
        | some data =>
            { state :=
                { s with
                  similarUsers := data.similar_users,
                  currentPage := data.page,
                  totalPages := data.total_pages },
              effects := [req] }
        | none => { state := s, effects := [req, .log "Error fetching similar users:"] }
      else
        { state := s, effects := [req, .log "Error fetching similar users:"] }

/-- Action `fetchPage` (userStore.ts lines 243–249). -/
def fetchPage (env : Env) (s : UserState) (page : Int) (minAge maxAge : Option Int) : FetchOut :=
  fetchSimilarUsers env s { page := page, minAge := minAge, maxAge := maxAge }

/-- Action `sendFriendRequest` (userStore.ts lines 250–278). -/
def sendFriendRequest (env : Env) (s : UserState) (username : String) : ActionOut :=
  let csrfToken := getCookie env.cookie "csrftoken"
  if !truthyStr csrfToken then
    { state := s, effects := [.log "CSRF token not found."],
      result := .failure (.str "CSRF token not found") }
  else
    let req := Effect.request
      { method := "POST", url := "/api/send_request/",
        csrf := csrfToken, body := some (.usernameBody username) }
    match env.sendRequestResp with
    | .netError m =>
        { state := s, effects := [req, .log "Error sending friend request:"],
          result := .failure (.exn (.network m)) }
    | .resp status _ =>
        if isOk status then
          { state := s, effects := [req], result := .success }
        else
          { state := s, effects := [req, .log "Error sending friend request:"],
            result := .failure (.exn (.error "Failed to send friend request")) }

/-- The short-circuit output shared by every mutating action when the
CSRF token is missing: no request, unchanged state, a console log, and
the structured failure. -/
def csrfFailOut (s : UserState) : ActionOut where
  state := s
  effects := [.log "CSRF token not found."]
  result := .failure (.str "CSRF token not found")

/-- The failure condition of a read-only fetch: transport rejection,
non-2xx status, or an unparseable body. -/
def fetchFailed {β : Type} : FetchResult β → Prop
  | .netError _ => True
  | .resp st body => isOk st = false ∨ body = none

/-! ### Concrete fixtures for the witness theorems -/

/-- A concrete user document. -/
def userW : User where
  username := "alice"
  email := "alice@example.com"
  date_of_birth := none
  first_name := "Alice"
  last_name := "Liddell"
  profile := { bio := "hello", avatar := none }
  hobbies := []

/-- A concrete hobby. -/
def hobbyW : Hobby where
  id := 7
  name := "Chess"
  created_at := "2024-01-01"
  created_by := none

/-- A concrete environment: token cookie present, profile GET serves
`userW`, hobby mutations answered 2xx with a non-success status field,
similar-users GET serves page 2 of 5. -/
def envW : Env where
  cookie := "csrftoken=tok"
  getProfileResp := .resp 200 (some userW)
  putProfileResp := .resp 200 none
  postHobbiesResp := .resp 200 (some { status := "error", hobby := none, errors := some "duplicate" })
  getHobbiesResp := .resp 200 (some { hobbies := [hobbyW] })
  addHobbyResp := .resp 200 (some { status := "error", errors := some "missing" })
  deleteHobbyResp := .resp 200 (some { status := "error", errors := some "absent" })
  similarResp := .resp 200 (some { similar_users := [], page := 2, total_pages := 5 })
  sendRequestResp := .resp 200 none

/-- Environment `envW` with no `csrftoken` cookie. -/
def envAbsentW : Env := { envW with cookie := "sessionid=abc" }

/-- Environment `envW` with a 401 on the profile GET. -/
def envAuthW : Env := { envW with getProfileResp := .resp 401 none }

/-- Environment `envW` with failing hobby and similar-users GETs. -/
def envFailW : Env := { envW with getHobbiesResp := .netError "offline", similarResp := .resp 500 none }

/-- A concrete profile patch whose hobbies mix a raw id and a `Hobby`
object. -/
def patchW : UserPatch where
  username := none
  email := none
  date_of_birth := none
  first_name := none
  last_name := none
  profile := none
  hobbies := some [.byId 3, .byObj hobbyW]

/-! ### Properties of the splitting machinery and of getCookie -/

/-- If `sep` occurs nowhere as a contiguous sublist of `s`, `findSub`
finds nothing. -/
theorem findSub_of_not_sub (sep s : List Char) (h : ¬ sep <:+: s) :
    findSub sep s = none := by
  induction s with
  | nil =>
      have hne : sep ≠ [] := fun he => h (by simp [he])
      exact findSub_nil sep hne
  | cons a t ih =>
      have hp : ¬ sep <+: a :: t := fun hp => h hp.isInfix
      rw [findSub_cons sep a t hp, ih (fun hi => h (hi.trans (List.suffix_cons a t).isInfix))]
      rfl

theorem jsSplit_of_none (sep s : List Char) (h : findSub sep s = none) :
    jsSplit sep s = [s] := by
  rw [jsSplit]
  by_cases hsep : sep = []
  · rw [dif_pos hsep]
  · rw [dif_neg hsep]
    split
    · rfl
    · rename_i i hi
      rw [h] at hi
      cases hi

theorem jsSplit_of_some (sep s : List Char) (i : Nat) (hsep : sep ≠ [])
    (h : findSub sep s = some i) :
    jsSplit sep s = s.take i :: jsSplit sep (s.drop (i + sep.length)) := by
  rw [jsSplit, dif_neg hsep]
  split
  · rename_i hn
    rw [h] at hn
    cases hn
  · rename_i j hj
    rw [h] at hj
    cases hj
    rfl

theorem countOcc_of_none (sep s : List Char) (h : findSub sep s = none) :
    countOcc sep s = 0 := by
  rw [countOcc]
  by_cases hsep : sep = []
  · rw [dif_pos hsep]
  · rw [dif_neg hsep]
    split
    · rfl
    · rename_i i hi
      rw [h] at hi
      cases hi

theorem countOcc_of_some (sep s : List Char) (i : Nat) (hsep : sep ≠ [])
    (h : findSub sep s = some i) :
    countOcc sep s = 1 + countOcc sep (s.drop (i + sep.length)) := by
  rw [countOcc, dif_neg hsep]
  split
  · rename_i hn
    rw [h] at hn
    cases hn
  · rename_i j hj
    rw [h] at hj
    cases hj
    rfl

/-- JS `split` always yields one part more than the number of separator
occurrences. -/
theorem jsSplit_length (sep : List Char) (hsep : sep ≠ []) (s : List Char) :
    (jsSplit sep s).length = countOcc sep s + 1 := by
  match hfs : findSub sep s with
  | none =>
      rw [jsSplit_of_none sep s hfs, countOcc_of_none sep s hfs]
      rfl
  | some i =>
      rw [jsSplit_of_some sep s i hsep hfs, countOcc_of_some sep s i hsep hfs]
      have ih := jsSplit_length sep hsep (s.drop (i + sep.length))
      simp only [List.length_cons, ih]
      omega
termination_by s.length
decreasing_by exact drop_len_lt sep s i hsep hfs

/-- The first part of a single-character split is everything before the
first occurrence of that character. -/
theorem jsSplit_singleton_headD (c : Char) (s : List Char) :
    (jsSplit [c] s).headD [] = s.takeWhile (fun x => x ≠ c) := by
  induction s with
  | nil =>
      rw [jsSplit_of_none [c] [] (findSub_nil [c] (by simp))]
      rfl
  | cons a t ih =>
      by_cases hac : a = c
      · subst hac
        have hpre : [a] <+: a :: t := by simp
        rw [jsSplit_of_some [a] (a :: t) 0 (by simp) (findSub_of_pre _ _ hpre)]
        simp
      · have hnp : ¬ [c] <+: a :: t := by
          intro hp
          have hc : c = a := by
            rcases hp with ⟨u, hu⟩
            simp only [List.cons_append, List.nil_append, List.cons_eq_cons] at hu
            exact hu.1
          exact hac hc.symm
        have hfs : findSub [c] (a :: t) = (findSub [c] t).map (· + 1) :=
          findSub_cons [c] a t hnp
        have hstep : (a :: t).takeWhile (fun x => x ≠ c) = a :: t.takeWhile (fun x => x ≠ c) := by
          simp [List.takeWhile_cons, hac]
        match hft : findSub [c] t with
        | none =>
            rw [jsSplit_of_none [c] (a :: t) (by rw [hfs, hft]; rfl)]
            have ht : (jsSplit [c] t).headD [] = t := by
              rw [jsSplit_of_none [c] t hft]
              rfl
            rw [ht] at ih
            rw [hstep, ← ih]
            rfl
        | some j =>
            have hfs' : findSub [c] (a :: t) = some (j + 1) := by
              rw [hfs, hft]
              rfl
            rw [jsSplit_of_some [c] (a :: t) (j + 1) (by simp) hfs']
            have ht : (jsSplit [c] t).headD [] = t.take j := by
              rw [jsSplit_of_some [c] t j (by simp) hft]
              rfl
            rw [ht] at ih
            simp only [List.headD_cons, List.take_succ_cons]
            rw [hstep, ih]

theorem cookieSep_eq (name : String) : cookieSep name = ';' :: ' ' :: (name.data ++ ['=']) := by
  rcases name with ⟨l⟩
  rfl

theorem cookieSep_ne (name : String) : cookieSep name ≠ [] := by
  rw [cookieSep_eq]
  simp

theorem getCookie_of_absent (cookie name : String) (h : cookieAbsent cookie name) :
    getCookie cookie name = none := by
  have hfs := findSub_of_not_sub _ _ h
  simp only [getCookie]
  rw [jsSplit_of_none _ _ hfs]
  simp

/-! ### Helper lemmas -/

/-- Function `getCookie` never returns an empty string: `|| null` turns it into
null. -/
theorem getCookie_some_ne (cookie name tok : String)
    (h : getCookie cookie name = some tok) : tok ≠ "" := by
  simp only [getCookie] at h
  split at h
  · split at h
    · cases h
    · rename_i hraw
      cases h
      intro he
      apply hraw
      have hd := congrArg String.data he
      simpa using hd
  · cases h

/-- A present CSRF token passes the `if (!csrfToken)` guard. -/
theorem truthyStr_getCookie (cookie name tok : String)
    (h : getCookie cookie name = some tok) :
    truthyStr (getCookie cookie name) = true := by
  rw [h]
  have := getCookie_some_ne cookie name tok h
  simp [truthyStr, this]

/-- Action `fetchUserProfile` on an ok response carrying a user document
replaces `userData` with that document and does nothing else. -/
theorem fetchUserProfile_of_ok (env : Env) (s : UserState) (st : Nat) (u : User)
    (hget : env.getProfileResp = .resp st (some u)) (hok : isOk st = true) :
    fetchUserProfile env s =
      { state := { s with userData := some u },
        effects := [.request { method := "GET", url := "/api/profile/",
                               csrf := none, body := none }] } := by
  unfold fetchUserProfile
  rw [hget]
  simp [hok]

/-- Concrete evaluation of `getCookie` on the fixture cookie store
(`jsSplit` is defined by well-founded recursion, so this is proved via
its unfolding lemmas rather than by kernel reduction). -/
theorem getCookie_envW : getCookie envW.cookie "csrftoken" = some "tok" := by
  have hsep : cookieSep "csrftoken" ≠ [] := cookieSep_ne _
  have h1 : findSub (cookieSep "csrftoken") ("; " ++ envW.cookie).data = some 0 := by decide
  have h2 : findSub (cookieSep "csrftoken")
      (("; " ++ envW.cookie).data.drop (0 + (cookieSep "csrftoken").length)) = none := by decide
  have h3 : findSub [';']
      (("; " ++ envW.cookie).data.drop (0 + (cookieSep "csrftoken").length)) = none := by decide
  simp only [getCookie]
  rw [jsSplit_of_some _ _ 0 hsep h1, jsSplit_of_none _ _ h2]
  have h4 : ∀ (x y : List Char), ([x, y]).getLastD [] = y := fun x y => rfl
  rw [h4, jsSplit_of_none _ _ h3]
  decide

/-- The fixture `updateProfile` call succeeds. -/
theorem updateProfile_envW_success :
    (updateProfile envW initialState patchW).result = ActionResult.success := by
  have hne : (("tok" : String) != "") = true := by decide
  simp only [updateProfile, getCookie_envW, truthyStr, hne]
  have hput : envW.putProfileResp = .resp 200 none := rfl
  have hok : isOk 200 = true := by decide
  simp [hput, hok]

/-! ### The claims -/

/-- C8: for every page number and optional age bounds, `fetchPage`
is observationally equivalent to `fetchSimilarUsers` on the
corresponding filter params: same request, same state updates, same
failure behavior. -/
theorem C8_fetchPage_delegates (env : Env) (s : UserState) (page : Int)
    (minAge maxAge : Option Int) :
    fetchPage env s page minAge maxAge =
      fetchSimilarUsers env s { page := page, minAge := minAge, maxAge := maxAge } := rfl

/-- C9: `getCookie` returns a non-null value exactly when the delimiter
`"; " + name + "="` occurs exactly once in `"; " + document.cookie` and
the value following it up to the next `';'` is non-empty (that value is
returned); with the name absent, the delimiter occurring more than once,
or an empty cookie value, it returns null. -/
theorem C9_getCookie_matches_spec : ∀ (cookie name : String),
    getCookie cookie name = getCookieSpec cookie name := by
  intro cookie name
  have hsep : cookieSep name ≠ [] := cookieSep_ne name
  simp only [getCookie, getCookieSpec]
  rcases hfs : findSub (cookieSep name) ("; " ++ cookie).data with - | i
  · rw [jsSplit_of_none _ _ hfs, countOcc_of_none _ _ hfs]
    simp
  · rw [jsSplit_of_some _ _ i hsep hfs, countOcc_of_some _ _ i hsep hfs]
    rcases hfr : findSub (cookieSep name)
        (("; " ++ cookie).data.drop (i + (cookieSep name).length)) with - | j
    · rw [jsSplit_of_none _ _ hfr, countOcc_of_none _ _ hfr]
      rw [jsSplit_singleton_headD]
      simp [List.getLastD]
    · rw [jsSplit_of_some _ _ j hsep hfr, countOcc_of_some _ _ j hsep hfr]
      have hlen := jsSplit_length (cookieSep name) hsep
        ((("; " ++ cookie).data.drop (i + (cookieSep name).length)).drop
          (j + (cookieSep name).length))
      rw [if_neg (by simp only [List.length_cons]; omega),
        if_neg (by omega)]

/-- C10: in `fetchSimilarUsers` the `min_age` (resp. `max_age`) query
parameter is present exactly when `params.minAge` (resp. `params.maxAge`)
is truthy, so a bound of 0 (or null) is omitted from the request
entirely; the issued request's URL is the rendered query. -/
theorem C10_age_bounds_truthiness (env : Env) (s : UserState) (params : FilterParams) :
    (fetchSimilarUsers env s params).effects.head? =
      some (.request { method := "GET", url := similarUrl params,
                       csrf := none, body := none }) ∧
    ((∃ v, ("min_age", v) ∈ similarQuery params) ↔ truthyNum params.minAge = true) ∧
    ((∃ v, ("max_age", v) ∈ similarQuery params) ↔ truthyNum params.maxAge = true) ∧
    ((params.minAge = some 0 ∨ params.minAge = none) →
      ¬ ∃ v, ("min_age", v) ∈ similarQuery params) := by
  refine ⟨?_, ?_, ?_, ?_⟩
  · unfold fetchSimilarUsers
    rcases env.similarResp with m | ⟨st, body⟩
    · rfl
    · by_cases hok : isOk st = true
      · rcases body with - | d <;> simp [hok]
      · simp [hok]
  · by_cases hmin : truthyNum params.minAge = true <;>
      by_cases hmax : truthyNum params.maxAge = true <;>
      simp [similarQuery, hmin, hmax]
  · by_cases hmin : truthyNum params.minAge = true <;>
      by_cases hmax : truthyNum params.maxAge = true <;>
      simp [similarQuery, hmin, hmax]
  · intro h0
    have hmin : truthyNum params.minAge = false := by
      rcases h0 with h | h <;> simp [truthyNum, h]
    by_cases hmax : truthyNum params.maxAge = true <;>
      simp [similarQuery, hmin, hmax]

/-- C1: every `updateProfile` call that returns `{success:true}`, made
while the server's `GET /api/profile/` serves the full User document
`u`, leaves the container's `userData` equal to exactly `u` — the
server's current representation, never a locally-merged partial. -/
theorem C1_update_success_matches_server (env : Env) (s : UserState) (upd : UserPatch)
    (st : Nat) (u : User)
    (hget : env.getProfileResp = .resp st (some u)) (hok : isOk st = true)
    (hres : (updateProfile env s upd).result = .success) :
    (updateProfile env s upd).state.userData = some u := by
  by_cases hc : truthyStr (getCookie env.cookie "csrftoken") = true
  · rcases henv : env.putProfileResp with m | ⟨stp, bp⟩
    · have hne : (updateProfile env s upd).result ≠ .success := by
        simp only [updateProfile, hc, henv]
        simp
      exact absurd hres hne
    · by_cases hokp : isOk stp = true
      · have hstate : (updateProfile env s upd).state = (fetchUserProfile env s).state := by
          simp only [updateProfile, hc, henv, hokp]
          simp
        rw [hstate, fetchUserProfile_of_ok env s st u hget hok]
      · have hokf : isOk stp = false := by
          revert hokp
          cases isOk stp <;> simp
        have hne : (updateProfile env s upd).result ≠ .success := by
          simp only [updateProfile, hc, henv, hokf]
          rcases bp with - | eb <;> simp
        exact absurd hres hne
  · have hcf : truthyStr (getCookie env.cookie "csrftoken") = false := by
      revert hc
      cases truthyStr (getCookie env.cookie "csrftoken") <;> simp
    have hne : (updateProfile env s upd).result ≠ .success := by
      simp only [updateProfile, hcf]
      simp
    exact absurd hres hne

/-- C1 witness: a successful concrete `updateProfile` call leaves
`userData` at the server's document. -/
theorem C1_witness :
    (updateProfile envW initialState patchW).state.userData = some userW :=
  C1_update_success_matches_server envW initialState patchW 200 userW rfl (by decide)
    updateProfile_envW_success

/-- C2: with cookie `csrftoken` absent from the cookie store, each of
the five mutating actions performs zero network calls (its effect trace
is just the console log), mutates no state, and returns
`{success:false, error:'CSRF token not found'}`. -/
theorem C2_csrf_absent_short_circuits (env : Env) (s : UserState) (upd : UserPatch)
    (hobbyName : String) (hid did : Int) (uname : String)
    (h : cookieAbsent env.cookie "csrftoken") :
    updateProfile env s upd = csrfFailOut s ∧
    addHobby env s hobbyName = csrfFailOut s ∧
    addExistingHobbyToProfile env s hid = csrfFailOut s ∧
    deleteHobbyFromProfile env s did = csrfFailOut s ∧
    sendFriendRequest env s uname = csrfFailOut s := by
  have hg : getCookie env.cookie "csrftoken" = none := getCookie_of_absent _ _ h
  refine ⟨?_, ?_, ?_, ?_, ?_⟩ <;>
    simp [updateProfile, addHobby, addExistingHobbyToProfile, deleteHobbyFromProfile,
      sendFriendRequest, hg, truthyStr, csrfFailOut]

/-- C2 witness: the five mutating actions short-circuit in a concrete
environment without a `csrftoken` cookie. -/
theorem C2_witness :
    updateProfile envAbsentW initialState patchW = csrfFailOut initialState ∧
    addHobby envAbsentW initialState "Chess" = csrfFailOut initialState ∧
    addExistingHobbyToProfile envAbsentW initialState 7 = csrfFailOut initialState ∧
    deleteHobbyFromProfile envAbsentW initialState 7 = csrfFailOut initialState ∧
    sendFriendRequest envAbsentW initialState "bob" = csrfFailOut initialState :=
  C2_csrf_absent_short_circuits envAbsentW initialState patchW "Chess" 7 7 "bob" (by decide)

/-- C3: `fetchUserProfile` on a 401 or 403 response navigates to
`/login/` and leaves every field of the container state unchanged. -/
theorem C3_profile_auth_redirect (env : Env) (s : UserState) (st : Nat) (body : Option User)
    (hresp : env.getProfileResp = .resp st body) (hst : st = 401 ∨ st = 403) :
    fetchUserProfile env s =
      { state := s,
        effects := [.request { method := "GET", url := "/api/profile/",
                               csrf := none, body := none },
                    .navigate "/login/"] } := by
  unfold fetchUserProfile
  rw [hresp]
  rcases hst with rfl | rfl <;> rfl

/-- C3 witness: a concrete 401 profile response redirects and preserves
the state. -/
theorem C3_witness :
    fetchUserProfile envAuthW initialState =
      { state := initialState,
        effects := [.request { method := "GET", url := "/api/profile/",
                               csrf := none, body := none },
                    .navigate "/login/"] } :=
  C3_profile_auth_redirect envAuthW initialState 401 none rfl (Or.inl rfl)

/-- C4: when the server answers 2xx but with a status field other than
`success`, `addHobby`, `addExistingHobbyToProfile` and
`deleteHobbyFromProfile` leave the state exactly as before (no refetch:
the only effect is the one request) and return
`{success:false, error:E}` with `E` the server-supplied `errors` field. -/
theorem C4_logical_failure_preserves_state (env : Env) (s : UserState)
    (hobbyName : String) (hid did : Int) (tok : String)
    (hc : getCookie env.cookie "csrftoken" = some tok)
    (st1 : Nat) (b1 : HobbyPostBody)
    (h1 : env.postHobbiesResp = .resp st1 (some b1)) (hok1 : isOk st1 = true)
    (hs1 : b1.status ≠ "success")
    (st2 : Nat) (b2 : StatusBody)
    (h2 : env.addHobbyResp = .resp st2 (some b2)) (hok2 : isOk st2 = true)
    (hs2 : b2.status ≠ "success")
    (st3 : Nat) (b3 : StatusBody)
    (h3 : env.deleteHobbyResp = .resp st3 (some b3)) (hok3 : isOk st3 = true)
    (hs3 : b3.status ≠ "success") :
    addHobby env s hobbyName =
      { state := s,
        effects := [.request { method := "POST", url := "/api/hobbies/",
                               csrf := some tok, body := some (.nameBody hobbyName) }],
        result := .failure (.server b1.errors) } ∧
    addExistingHobbyToProfile env s hid =
      { state := s,
        effects := [.request { method := "POST", url := "/api/profile/add_hobby",
                               csrf := some tok, body := some (.hobbyIdBody hid) }],
        result := .failure (.server b2.errors) } ∧
    deleteHobbyFromProfile env s did =
      { state := s,
        effects := [.request { method := "POST", url := "/api/profile/delete_hobby",
                               csrf := some tok, body := some (.hobbyIdBody did) }],
        result := .failure (.server b3.errors) } := by
  have hne : tok ≠ "" := getCookie_some_ne _ _ _ hc
  refine ⟨?_, ?_, ?_⟩
  · simp only [addHobby, hc, h1, hok1]
    simp [truthyStr, hne, hs1]
  · simp only [addExistingHobbyToProfile, hc, h2, hok2]
    simp [truthyStr, hne, hs2]
  · simp only [deleteHobbyFromProfile, hc, h3, hok3]
    simp [truthyStr, hne, hs3]

/-- C4 witness: concrete 2xx responses with `status:"error"` leave the
state untouched and surface the server error fields. -/
theorem C4_witness :
    addHobby envW initialState "Chess" =
      { state := initialState,
        effects := [.request { method := "POST", url := "/api/hobbies/",
                               csrf := some "tok", body := some (.nameBody "Chess") }],
        result := .failure (.server (some "duplicate")) } ∧
    addExistingHobbyToProfile envW initialState 7 =
      { state := initialState,
        effects := [.request { method := "POST", url := "/api/profile/add_hobby",
                               csrf := some "tok", body := some (.hobbyIdBody 7) }],
        result := .failure (.server (some "missing")) } ∧
    deleteHobbyFromProfile envW initialState 7 =
      { state := initialState,
        effects := [.request { method := "POST", url := "/api/profile/delete_hobby",
                               csrf := some "tok", body := some (.hobbyIdBody 7) }],
        result := .failure (.server (some "absent")) } :=
  C4_logical_failure_preserves_state envW initialState "Chess" 7 7 "tok" getCookie_envW
    200 _ rfl (by decide) (by decide)
    200 _ rfl (by decide) (by decide)
    200 _ rfl (by decide) (by decide)

/-- C5: with the CSRF token present, the `PUT /api/profile/` request
issued by `updateProfile` carries as its body's hobbies field the input
hobbies list with every `Hobby` object replaced by its id — an array of
ids only, in input order (`HobbyRef.toId` is exactly the source's
`typeof hobby === 'number' ? hobby : hobby.id`). -/
theorem C5_update_sends_hobby_ids (env : Env) (s : UserState) (upd : UserPatch)
    (tok : String) (hlist : List HobbyRef)
    (hc : getCookie env.cookie "csrftoken" = some tok)
    (hh : upd.hobbies = some hlist) :
    (updateProfile env s upd).effects.head? =
      some (.request { method := "PUT", url := "/api/profile/", csrf := some tok,
                       body := some (.updateBody (formatUpdate upd)) }) ∧
    (formatUpdate upd).hobbies = some (hlist.map HobbyRef.toId) := by
  have hne : tok ≠ "" := getCookie_some_ne _ _ _ hc
  constructor
  · simp only [updateProfile, hc]
    rcases henv : env.putProfileResp with m | ⟨stp, bp⟩
    · simp [truthyStr, hne]
    · by_cases hok : isOk stp = true
      · simp [truthyStr, hne, hok]
      · have hokf : isOk stp = false := by
          revert hok
          cases isOk stp <;> simp
        rcases bp with - | eb <;> simp [truthyStr, hne, hokf]
  · simp [formatUpdate, hh]

/-- C5 witness: a concrete patch mixing a raw id and a `Hobby` object
is sent as the id array `[3, 7]`. -/
theorem C5_witness :
    (updateProfile envW initialState patchW).effects.head? =
      some (.request { method := "PUT", url := "/api/profile/", csrf := some "tok",
                       body := some (.updateBody (formatUpdate patchW)) }) ∧
    (formatUpdate patchW).hobbies = some [3, 7] :=
  C5_update_sends_hobby_ids envW initialState patchW "tok" [.byId 3, .byObj hobbyW]
    getCookie_envW rfl

/-- C6: `fetchSimilarUsers` with `{page:2, minAge:18, maxAge:30}` issues
exactly one GET request to
`/api/users/similar_with_filters/?page=2&min_age=18&max_age=30`, and on
a 2xx body `{similar_users:S, page:2, total_pages:5}` sets
`similarUsers := S`, `currentPage := 2`, `totalPages := 5`. -/
theorem C6_fetchSimilarUsers_concrete (env : Env) (s : UserState)
    (S : List SimilarUser) (st : Nat)
    (hresp : env.similarResp =
      .resp st (some { similar_users := S, page := 2, total_pages := 5 }))
    (hok : isOk st = true) :
    fetchSimilarUsers env s { page := 2, minAge := some 18, maxAge := some 30 } =
      { state := { s with similarUsers := S, currentPage := 2, totalPages := 5 },
        effects := [.request
          { method := "GET",
            url := "/api/users/similar_with_filters/?page=2&min_age=18&max_age=30",
            csrf := none, body := none }] } := by
  have hurl : similarUrl { page := 2, minAge := some 18, maxAge := some 30 } =
      "/api/users/similar_with_filters/?page=2&min_age=18&max_age=30" := by decide
  simp only [fetchSimilarUsers, hresp, hurl]
  simp [hok]

/-- C6 witness: the concrete filtered fetch against a concrete page-2
response. -/
theorem C6_witness :
    fetchSimilarUsers envW initialState { page := 2, minAge := some 18, maxAge := some 30 } =
      { state := { initialState with similarUsers := [], currentPage := 2, totalPages := 5 },
        effects := [.request
          { method := "GET",
            url := "/api/users/similar_with_filters/?page=2&min_age=18&max_age=30",
            csrf := none, body := none }] } :=
  C6_fetchSimilarUsers_concrete envW initialState [] 200 rfl (by decide)

/-- C7: a failing `fetchHobbies` or `fetchSimilarUsers` call (transport
rejection, non-2xx status, or unparseable body) leaves every field of
the container state exactly as it was; the error is only logged. -/
theorem C7_failed_fetches_preserve_state (env : Env) (s : UserState) (params : FilterParams)
    (h1 : fetchFailed env.getHobbiesResp) (h2 : fetchFailed env.similarResp) :
    fetchHobbies env s =
      { state := s,
        effects := [.request { method := "GET", url := "/api/hobbies/",
                               csrf := none, body := none },
                    .log "Error fetching hobbies:"] } ∧
    fetchSimilarUsers env s params =
      { state := s,
        effects := [.request { method := "GET", url := similarUrl params,
                               csrf := none, body := none },
                    .log "Error fetching similar users:"] } := by
  constructor
  · unfold fetchHobbies
    rcases henv : env.getHobbiesResp with m | ⟨st, body⟩
    · rfl
    · rw [henv] at h1
      simp only [fetchFailed] at h1
      rcases h1 with h1 | h1
      · simp [h1]
      · subst h1
        by_cases hok : isOk st = true <;> simp [hok]
  · unfold fetchSimilarUsers
    rcases henv : env.similarResp with m | ⟨st, body⟩
    · rfl
    · rw [henv] at h2
      simp only [fetchFailed] at h2
      rcases h2 with h2 | h2
      · simp [h2]
      · subst h2
        by_cases hok : isOk st = true <;> simp [hok]

/-- C7 witness: a transport failure on the hobby list and a 500 on the
similar-users list leave the state unchanged. -/
theorem C7_witness :
    fetchHobbies envFailW initialState =
      { state := initialState,
        effects := [.request { method := "GET", url := "/api/hobbies/",
                               csrf := none, body := none },
                    .log "Error fetching hobbies:"] } ∧
    fetchSimilarUsers envFailW initialState { page := 1, minAge := none, maxAge := none } =
      { state := initialState,
        effects := [.request
          { method := "GET",
            url := similarUrl { page := 1, minAge := none, maxAge := none },
            csrf := none, body := none },
          .log "Error fetching similar users:"] } :=
  C7_failed_fetches_preserve_state envFailW initialState
    { page := 1, minAge := none, maxAge := none } (by trivial) (Or.inr rfl)

/-- C8 witness: the delegation at a concrete page and age bounds. -/
theorem C8_witness :
    fetchPage envW initialState 2 (some 18) (some 30) =
      fetchSimilarUsers envW initialState { page := 2, minAge := some 18, maxAge := some 30 } :=
  C8_fetchPage_delegates envW initialState 2 (some 18) (some 30)

/-- C9 witness: the characterization at a concrete cookie store. -/
theorem C9_witness :
    getCookie "a=1; csrftoken=abc" "csrftoken" =
      getCookieSpec "a=1; csrftoken=abc" "csrftoken" :=
  C9_getCookie_matches_spec "a=1; csrftoken=abc" "csrftoken"

/-- C10 witness: with `minAge = 0` and `maxAge = 30`, only `max_age`
appears in the query. -/
theorem C10_witness :
    (fetchSimilarUsers envW initialState
        { page := 2, minAge := some 0, maxAge := some 30 }).effects.head? =
      some (.request
        { method := "GET",
          url := similarUrl { page := 2, minAge := some 0, maxAge := some 30 },
          csrf := none, body := none }) ∧
    ((∃ v, ("min_age", v) ∈ similarQuery { page := 2, minAge := some 0, maxAge := some 30 }) ↔
      truthyNum ({ page := 2, minAge := some 0, maxAge := some 30 } : FilterParams).minAge = true) ∧
    ((∃ v, ("max_age", v) ∈ similarQuery { page := 2, minAge := some 0, maxAge := some 30 }) ↔
      truthyNum ({ page := 2, minAge := some 0, maxAge := some 30 } : FilterParams).maxAge = true) ∧
    ((({ page := 2, minAge := some 0, maxAge := some 30 } : FilterParams).minAge = some 0 ∨
        ({ page := 2, minAge := some 0, maxAge := some 30 } : FilterParams).minAge = none) →
      ¬ ∃ v, ("min_age", v) ∈ similarQuery { page := 2, minAge := some 0, maxAge := some 30 }) :=
  C10_age_bounds_truthiness envW initialState { page := 2, minAge := some 0, maxAge := some 30 }

end UserStore
